import Mathlib

/-!
Shallow embedding of `src/ProjectDash.py`, a single-file Dash application that
loads a CSV of airline routes and, in the callback `update_graph`, recomputes
aggregates and rebuilds a geographic figure on every filter change.

The embedding follows the Python source line by line:
  * `Row` is one row of the loaded dataframe `df` (after the loader has split
    the geocoded coordinate strings into four numeric columns).  The derived
    `route` column, which `update_graph` writes onto the shared dataframe at
    line 61, is an `Option` field that is `none` straight after loading.
  * `routeCounts` embeds line 64: `df.groupby(['route','start_lat','start_lon',
    'airport_1']).size()` over the full (mutated) dataframe.  Pandas sorts the
    group keys, which `List.insertionSort` over a lexicographic order mirrors.
  * `resolveYears` / `resolveCities` embed the empty-selection handling at
    lines 67-71, `filteredRows` the boolean-mask filter at line 74.
  * `dfAggregated` embeds the `groupby(['city1','start_lat','start_lon']).agg`
    call at lines 77-82 together with the `value_counts` merge (lines 85-89)
    and the hover-text construction (lines 92-97).
  * `cityColors` embeds the palette dictionary comprehension at lines 100-104,
    `figureOf` the marker trace (109-124) and the per-row line traces
    (128-141), and `updateGraph` the whole callback, returning the mutated
    dataframe next to the figure and an error when `max()` would be applied
    to an empty sequence (line 120, only possible for an empty dataframe).
-/

/-- One row of the dataframe `df` after the loader has split
`Geocoded_City1` / `Geocoded_City2` into the four numeric columns.
The `route` field models the derived column that `update_graph` assigns at
line 61; it is `none` straight after loading. -/
structure Row where
  Year : Nat
  city1 : String
  city2 : String
  airport_1 : String
  passengers : Nat
  start_lat : ℚ
  start_lon : ℚ
  end_lat : ℚ
  end_lon : ℚ
  route : Option (String × String)
deriving DecidableEq, Repr

/-- The in-memory dataframe: a list of rows in file order. -/
abbrev Dataset := List Row

/-- Code-point lexicographic strict comparison of character lists, the order
Python uses on strings (and the order of Lean's `String.lt`), written as a
`Bool` so that it evaluates inside the kernel. -/
def strLtB : List Char → List Char → Bool
  | [], [] => false
  | [], _ :: _ => true
  | _ :: _, [] => false
  | a :: as, b :: bs =>
      if a.toNat < b.toNat then true
      else if b.toNat < a.toNat then false
      else strLtB as bs

/-- Strict code-point order on strings. -/
def strLt (a b : String) : Prop := strLtB a.data b.data = true

instance : DecidableRel strLt := fun a b => by unfold strLt; infer_instance

/-- Non-strict code-point order on strings (`a ≤ b` iff `¬ b < a`). -/
def strLe (a b : String) : Prop := ¬ strLt b a

instance : DecidableRel strLe := fun a b => by unfold strLe; infer_instance

/-- Line 61: `tuple(sorted([row['city1'], row['city2']]))` — the unordered
route key of one row, as the sorted pair of its two city names. -/
def routeOf (r : Row) : String × String :=
  if strLe r.city1 r.city2 then (r.city1, r.city2) else (r.city2, r.city1)

/-- Writing the derived route value into one row's `route` column. -/
def setRoute (r : Row) : Row := { r with route := some (routeOf r) }

/-- Line 61: `df['route'] = df.apply(...)` — the dataframe after the route
column has been (re)assigned. -/
def withRoute (df : Dataset) : Dataset := df.map setRoute

/-- The group key of line 64: the `route` column together with
`start_lat`, `start_lon` and `airport_1`. -/
abbrev RKey := (String × String) × ℚ × ℚ × String

/-- The key columns read by the `groupby` at line 64.  On a dataframe produced
by `withRoute` the `route` column is always present, so the default branch of
`Option.getD` is never taken there. -/
def rcKey (r : Row) : RKey :=
  (r.route.getD (routeOf r), r.start_lat, r.start_lon, r.airport_1)

/-- Lexicographic order on the line-64 group keys, mirroring how pandas sorts
group keys (Python tuples compare lexicographically). -/
def rkeyLex (a b : RKey) : Prop :=
  strLt a.1.1 b.1.1 ∨ (a.1.1 = b.1.1 ∧
    (strLt a.1.2 b.1.2 ∨ (a.1.2 = b.1.2 ∧
      (a.2.1 < b.2.1 ∨ (a.2.1 = b.2.1 ∧
        (a.2.2.1 < b.2.2.1 ∨ (a.2.2.1 = b.2.2.1 ∧ strLe a.2.2.2 b.2.2.2)))))))

instance : DecidableRel rkeyLex := fun a b => by unfold rkeyLex; infer_instance

/-- First-occurrence deduplication (the order `pandas.unique` and group-key
collection use), with an accumulator of already-seen elements. -/
def dedupFirstAux {α : Type} [DecidableEq α] : List α → List α → List α
  | _, [] => []
  | seen, a :: l =>
      if a ∈ seen then dedupFirstAux seen l else a :: dedupFirstAux (a :: seen) l

/-- The distinct elements of a list, in order of first occurrence. -/
def dedupFirst {α : Type} [DecidableEq α] (l : List α) : List α :=
  dedupFirstAux [] l

/-- The sorted distinct group keys of the `groupby` at line 64. -/
def rcGroupKeys (dfR : Dataset) : List RKey :=
  List.insertionSort rkeyLex (dedupFirst (dfR.map rcKey))

/-- Line 64: `route_counts = df.groupby(['route','start_lat','start_lon',
'airport_1']).size().reset_index(name='flight_count')`.  Note that this groups
the FULL dataframe (after the route-column assignment), not the filtered one:
the filter is only applied at line 74, after this statement. -/
def routeCounts (df : Dataset) : List (RKey × Nat) :=
  (rcGroupKeys (withRoute df)).map
    (fun k => (k, ((withRoute df).filter (fun r => decide (rcKey r = k))).length))

/-- The distinct values of the `Year` column, `df['Year'].unique()`. -/
def distinctYears (df : Dataset) : List Nat := dedupFirst (df.map (·.Year))

/-- The distinct values of the `city1` column, `df['city1'].unique()`. -/
def distinctCities (df : Dataset) : List String := dedupFirst (df.map (·.city1))

/-- Lines 67-68: an absent (`None`) or empty year selection is replaced by all
distinct years of the full dataframe. -/
def resolveYears (df : Dataset) (sel : Option (List Nat)) : List Nat :=
  match sel with
  | none => distinctYears df
  | some l => if l = [] then distinctYears df else l

/-- Lines 70-71: an absent (`None`) or empty city selection is replaced by all
distinct origin cities of the full dataframe. -/
def resolveCities (df : Dataset) (sel : Option (List String)) : List String :=
  match sel with
  | none => distinctCities df
  | some l => if l = [] then distinctCities df else l

/-- Line 74: `df_year = df[df['Year'].isin(year_selected) &
df['city1'].isin(source_city_selected)]`, applied to the mutated dataframe. -/
def filteredRows (df : Dataset) (years : List Nat) (cities : List String) : Dataset :=
  (withRoute df).filter (fun r => decide (r.Year ∈ years ∧ r.city1 ∈ cities))

/-- The filtered dataframe `df_year` for a raw filter selection, with the
empty-selection resolution of lines 67-71 applied first. -/
def filtOf (df : Dataset) (y : Option (List Nat)) (c : Option (List String)) : Dataset :=
  filteredRows df (resolveYears df y) (resolveCities df c)

/-- The group key of the aggregation at line 77:
`['city1', 'start_lat', 'start_lon']`. -/
def aggKey (r : Row) : String × ℚ × ℚ := (r.city1, r.start_lat, r.start_lon)

/-- Lexicographic order on the line-77 group keys (pandas sorts group keys). -/
def keyLe3 (a b : String × ℚ × ℚ) : Prop :=
  strLt a.1 b.1 ∨ (a.1 = b.1 ∧ (a.2.1 < b.2.1 ∨ (a.2.1 = b.2.1 ∧ a.2.2 ≤ b.2.2)))

instance : DecidableRel keyLe3 := fun a b => by unfold keyLe3; infer_instance

/-- The sorted distinct group keys of the aggregation at line 77. -/
def aggGroupKeys (dfy : Dataset) : List (String × ℚ × ℚ) :=
  List.insertionSort keyLe3 (dedupFirst (dfy.map aggKey))

/-- Lines 92-97: the multi-line hover string of one aggregated city. -/
def hoverTextOf (c : String) (fc : Nat) (p : Nat) (ap : String) : String :=
  "City: " ++ c ++ "<br>" ++ "Total Flights: " ++ toString fc ++ "<br>" ++
    "Passengers: " ++ toString p ++ "<br>" ++ "Airport: " ++ ap

/-- One row of `df_aggregated` after the aggregation (lines 77-82), the
flight-count merge (lines 85-89) and the hover-text column (lines 92-97). -/
structure AggRow where
  city1 : String
  start_lat : ℚ
  start_lon : ℚ
  passengers : Nat
  airport_1 : String
  end_lat : ℚ
  end_lon : ℚ
  flight_count : Nat
  hover_text : String
deriving DecidableEq, Repr

/-- The aggregated row for one group key of `df_year`: summed passengers and
first-row (`'first'`) airport and destination coordinates (lines 77-82); the
merged `flight_count` is the `value_counts` occurrence count of the city in
`df_year` (lines 85-89), and `hover_text` is built from the merged row
(lines 92-97). -/
def mkAggRow (dfy : Dataset) (k : String × ℚ × ℚ) : AggRow :=
  { city1 := k.1
    start_lat := k.2.1
    start_lon := k.2.2
    passengers := (((dfy.filter (fun r => decide (aggKey r = k))).map (·.passengers)).sum)
    airport_1 := (((dfy.filter (fun r => decide (aggKey r = k))).head?).map (·.airport_1)).getD ""
    end_lat := (((dfy.filter (fun r => decide (aggKey r = k))).head?).map (·.end_lat)).getD 0
    end_lon := (((dfy.filter (fun r => decide (aggKey r = k))).head?).map (·.end_lon)).getD 0
    flight_count := (dfy.filter (fun r => decide (r.city1 = k.1))).length
    hover_text :=
      hoverTextOf k.1
        ((dfy.filter (fun r => decide (r.city1 = k.1))).length)
        (((dfy.filter (fun r => decide (aggKey r = k))).map (·.passengers)).sum)
        ((((dfy.filter (fun r => decide (aggKey r = k))).head?).map (·.airport_1)).getD "") }

/-- Lines 77-97: the aggregated city summary `df_aggregated` of `df_year`,
one row per sorted distinct `(city1, start_lat, start_lon)` group key. -/
def dfAggregated (dfy : Dataset) : List AggRow :=
  (aggGroupKeys dfy).map (mkAggRow dfy)

/-- The aggregated city summary for a raw filter selection. -/
def aggOf (df : Dataset) (y : Option (List Nat)) (c : Option (List String)) : List AggRow :=
  dfAggregated (filtOf df y c)

/-- Line 100: `unique_cities = df_aggregated['city1'].unique()`. -/
def uniqueCities (agg : List AggRow) : List String :=
  dedupFirst (agg.map (·.city1))

/-- Line 101: `px.colors.qualitative.Plotly`, the fixed ten-colour palette. -/
def plotlyPalette : List String :=
  ["#636EFA", "#EF553B", "#00CC96", "#AB63FA", "#FFA15A",
   "#19D3F3", "#FF6692", "#B6E880", "#FF97FF", "#FECB52"]

/-- Line 104: the dictionary comprehension
`{city: color_scale[i % len(color_scale)] for i, city in enumerate(unique_cities)}`,
unrolled with an explicit enumeration index. -/
def cityColorsAux : Nat → List String → List (String × String)
  | _, [] => []
  | i, c :: cs =>
      (c, plotlyPalette.getD (i % plotlyPalette.length) "") :: cityColorsAux (i + 1) cs

/-- The per-city colour assignment `city_colors` of one recompute call. -/
def cityColors (agg : List AggRow) : List (String × String) :=
  cityColorsAux 0 (uniqueCities agg)

/-- The marker-layer trace added at lines 109-124. -/
structure MarkerTrace where
  lon : List ℚ
  lat : List ℚ
  text : List String
  sizes : List Nat
  sizeref : ℚ
  colors : List (Option String)
deriving DecidableEq, Repr

/-- One line-layer trace added at lines 129-141 for one row of `df_year`:
a two-point path (terminated by `None`) from the row's origin to its
destination, coloured by the row's origin city. -/
structure LineTrace where
  lon : List (Option ℚ)
  lat : List (Option ℚ)
  width : Nat
  color : Option String
  opacity : ℚ
deriving DecidableEq, Repr

/-- The parts of the figure the callback varies (static layout styling is
constant and omitted). -/
structure Figure where
  marker : MarkerTrace
  lines : List LineTrace
deriving DecidableEq, Repr

/-- `max` over the flight counts, `max(route_counts['flight_count'])`
(line 120); Python's `max` raises on an empty sequence, which `updateGraph`
accounts for separately. -/
def maxCount : List Nat → Nat
  | [] => 0
  | a :: l => max a (maxCount l)

/-- Lines 109-124: the marker trace — positions, hover text and colours come
row-wise from `df_aggregated`, while the size array and `sizeref` come from
`route_counts` (computed from the full dataframe). -/
def markerTraceOf (df : Dataset) (agg : List AggRow) : MarkerTrace :=
  { lon := agg.map (·.start_lon)
    lat := agg.map (·.start_lat)
    text := agg.map (·.hover_text)
    sizes := (routeCounts df).map (·.2)
    sizeref := 2 * (maxCount ((routeCounts df).map (·.2)) : ℚ) / 15 ^ 2
    colors := agg.map (fun a => (cityColors agg).lookup a.city1) }

/-- Lines 129-141: the line trace of one row of `df_year`. -/
def mkLineTrace (colors : List (String × String)) (r : Row) : LineTrace :=
  { lon := [some r.start_lon, some r.end_lon, none]
    lat := [some r.start_lat, some r.end_lat, none]
    width := 1
    color := colors.lookup r.city1
    opacity := 1 / 2 }

/-- Lines 128-141: one line trace per row of `df_year`, in row order. -/
def lineTracesOf (dfy : Dataset) (agg : List AggRow) : List LineTrace :=
  dfy.map (mkLineTrace (cityColors agg))

/-- The figure built by one invocation of `update_graph` for a raw filter
selection. -/
def figureOf (df : Dataset) (y : Option (List Nat)) (c : Option (List String)) : Figure :=
  { marker := markerTraceOf df (aggOf df y c)
    lines := lineTracesOf (filtOf df y c) (aggOf df y c) }

/-- The whole callback `update_graph` (lines 59-165): it first writes the
route column onto the shared dataframe (line 61), then builds the figure.
The only run-time failure is `max()` over an empty sequence at line 120,
possible only when `route_counts` is empty, i.e. when the dataframe is empty;
the dataframe mutation has already happened at that point.  The result pairs
the dataframe as left behind by the call with the figure. -/
def updateGraph (df : Dataset) (y : Option (List Nat)) (c : Option (List String)) :
    Except String (Dataset × Figure) :=
  if routeCounts df = [] then Except.error "max of an empty sequence"
  else Except.ok (withRoute df, figureOf df y c)

/-- The in-memory dataframe after one invocation of `update_graph`: the
line-61 column assignment precedes the only failure point, so the mutation
persists even on the error path. -/
def datasetAfter (df : Dataset) (y : Option (List Nat)) (c : Option (List String)) : Dataset :=
  match updateGraph df y c with
  | Except.ok p => p.1
  | Except.error _ => withRoute df

/-- A row with the derived route column forgotten, for stating that the
original columns of the dataframe are untouched. -/
def eraseRoute (r : Row) : Row := { r with route := none }

/-- The plotly area-mode size factor of a marker: `size / sizeref` (the
rendered marker area is proportional to it). -/
def markerSizeFactor (n : Nat) (sizeref : ℚ) : ℚ := (n : ℚ) / sizeref

/-- The per-route flight counts as §4.3 step 3 of the spec words them:
the FILTERED rows grouped by the unordered route key alone, one count per
route key (in first-seen order; the spec fixes no order).  Used to compare
the spec's description against `routeCounts`. -/
def routeCountsSpec (dfy : Dataset) : List ((String × String) × Nat) :=
  (dedupFirst (dfy.map routeOf)).map
    (fun k => (k, (dfy.filter (fun r => decide (routeOf r = k))).length))

/-- A convenience row constructor for the concrete instances below. -/
def mkRow (Y : Nat) (c1 c2 ap : String) (p : Nat) (sla slo ela elo : ℚ) : Row :=
  { Year := Y, city1 := c1, city2 := c2, airport_1 := ap, passengers := p,
    start_lat := sla, start_lon := slo, end_lat := ela, end_lon := elo,
    route := none }

/-- A one-row dataset. -/
def exA : Dataset := [mkRow 2020 "Austin" "Dallas" "AUS" 100 30 (-97) 32 (-96)]

/-- A two-row, two-city dataset with one origin coordinate per city. -/
def exB : Dataset :=
  [mkRow 2020 "Austin" "Dallas" "AUS" 100 30 (-97) 32 (-96),
   mkRow 2021 "Boston" "Chicago" "BOS" 70 42 (-71) 41 (-87)]

/-- Three rows on one unordered route: two identical-key rows in different
years, and one row flown in the opposite direction (hence with different
origin coordinates and origin airport). -/
def ex5 : Dataset :=
  [mkRow 2020 "Austin" "Dallas" "AUS" 100 30 (-97) 32 (-96),
   mkRow 2021 "Austin" "Dallas" "AUS" 50 30 (-97) 32 (-96),
   mkRow 2020 "Dallas" "Austin" "DAL" 70 32 (-96) 30 (-97)]

/-- Two rows of one origin city recorded with two different origin
coordinates. -/
def ex9 : Dataset :=
  [mkRow 2020 "Austin" "Dallas" "AUS-A" 100 30 (-97) 32 (-96),
   mkRow 2020 "Austin" "Houston" "AUS-B" 50 31 (-97) 29 (-95)]

/-- Like `ex9`, but the second-encountered origin coordinate sorts first. -/
def ex10 : Dataset :=
  [mkRow 2020 "Austin" "Dallas" "AUS-A" 100 30 (-97) 32 (-96),
   mkRow 2020 "Austin" "Houston" "AUS-B" 50 29 (-97) 29 (-95)]

/-- One city with one origin coordinate and two distinct destinations. -/
def exW10 : Dataset :=
  [mkRow 2020 "Austin" "Dallas" "AUS" 100 30 (-97) 32 (-96),
   mkRow 2021 "Austin" "Houston" "AUS" 50 30 (-97) 29 (-95)]

/-- The single aggregated row of `exW10` under the all-inclusive selection. -/
def w10row : AggRow :=
  { city1 := "Austin", start_lat := 30, start_lon := -97, passengers := 150,
    airport_1 := "AUS", end_lat := 32, end_lon := -96, flight_count := 2,
    hover_text := hoverTextOf "Austin" 2 150 "AUS" }

/-! ### Basic list toolkit -/

theorem mapCongrMem {α β : Type} (f g : α → β) :
    ∀ l : List α, (∀ a ∈ l, f a = g a) → l.map f = l.map g := by
  intro l
  induction l with
  | nil => intro _; rfl
  | cons a l ih =>
      intro h
      simp only [List.map_cons]
      rw [h a (by simp), ih (fun b hb => h b (by simp [hb]))]

theorem filterCongrMem {α : Type} (p q : α → Bool) :
    ∀ l : List α, (∀ a ∈ l, p a = q a) → l.filter p = l.filter q := by
  intro l
  induction l with
  | nil => intro _; rfl
  | cons a l ih =>
      intro h
      simp only [List.filter_cons]
      rw [h a (by simp), ih (fun b hb => h b (by simp [hb]))]

theorem filterMapComm {α β : Type} (f : α → β) (p : β → Bool) :
    ∀ l : List α, (l.map f).filter p = (l.filter (fun a => p (f a))).map f := by
  intro l
  induction l with
  | nil => rfl
  | cons a l ih =>
      simp only [List.map_cons, List.filter_cons]
      by_cases h : p (f a) = true
      · simp [h, ih]
      · simp [h, ih]

theorem mem_dedupFirstAux {α : Type} [DecidableEq α] (x : α) :
    ∀ (l seen : List α), x ∈ dedupFirstAux seen l ↔ (x ∈ l ∧ x ∉ seen) := by
  intro l
  induction l with
  | nil => intro seen; simp [dedupFirstAux]
  | cons a l ih =>
      intro seen
      by_cases ha : a ∈ seen
      · rw [show dedupFirstAux seen (a :: l) = dedupFirstAux seen l by
          simp [dedupFirstAux, if_pos ha], ih seen]
        constructor
        · rintro ⟨hx, hns⟩; exact ⟨List.mem_cons_of_mem _ hx, hns⟩
        · rintro ⟨hx, hns⟩
          rcases List.mem_cons.1 hx with rfl | hx
          · exact absurd ha hns
          · exact ⟨hx, hns⟩
      · rw [show dedupFirstAux seen (a :: l) = a :: dedupFirstAux (a :: seen) l by
          simp [dedupFirstAux, if_neg ha]]
        constructor
        · intro hx
          rcases List.mem_cons.1 hx with rfl | hx
          · exact ⟨List.mem_cons_self _ _, ha⟩
          · rcases (ih (a :: seen)).1 hx with ⟨h1, h2⟩
            exact ⟨List.mem_cons_of_mem _ h1, fun hc => h2 (List.mem_cons_of_mem _ hc)⟩
        · rintro ⟨hx, hns⟩
          rcases List.mem_cons.1 hx with rfl | hx
          · exact List.mem_cons_self _ _
          · by_cases hxa : x = a
            · rw [hxa]; exact List.mem_cons_self _ _
            · refine List.mem_cons_of_mem _ ((ih (a :: seen)).2 ⟨hx, fun hc => ?_⟩)
              rcases List.mem_cons.1 hc with h1 | h1
              · exact hxa h1
              · exact hns h1

theorem mem_dedupFirst {α : Type} [DecidableEq α] (x : α) (l : List α) :
    x ∈ dedupFirst l ↔ x ∈ l := by
  simp [dedupFirst, mem_dedupFirstAux]

theorem nodup_dedupFirstAux {α : Type} [DecidableEq α] :
    ∀ (l seen : List α), (dedupFirstAux seen l).Nodup := by
  intro l
  induction l with
  | nil => intro seen; simp [dedupFirstAux]
  | cons a l ih =>
      intro seen
      by_cases ha : a ∈ seen
      · rw [show dedupFirstAux seen (a :: l) = dedupFirstAux seen l by
          simp [dedupFirstAux, if_pos ha]]
        exact ih seen
      · simp only [dedupFirstAux, if_neg ha, List.nodup_cons]
        refine ⟨fun hc => ?_, ih (a :: seen)⟩
        rw [mem_dedupFirstAux] at hc
        exact hc.2 (by simp)

theorem nodup_dedupFirst {α : Type} [DecidableEq α] (l : List α) :
    (dedupFirst l).Nodup := nodup_dedupFirstAux l []

theorem sumMapZero {κ : Type} (K : List κ) : (K.map (fun _ => (0 : Nat))).sum = 0 := by
  induction K with
  | nil => rfl
  | cons a K ih => simp [ih]

theorem sumMapIteMem {κ : Type} [DecidableEq κ] (k0 : κ) (v : Nat) (S : κ → Nat) :
    ∀ K : List κ, K.Nodup → k0 ∈ K →
      (K.map (fun k => if k0 = k then v + S k else S k)).sum = v + (K.map S).sum := by
  intro K
  induction K with
  | nil => intro _ h; cases h
  | cons a K ih =>
      intro hnd hk
      rcases List.nodup_cons.1 hnd with ⟨hna, hndK⟩
      by_cases hka : k0 = a
      · subst hka
        have hmap : K.map (fun k => if k0 = k then v + S k else S k) = K.map S := by
          refine mapCongrMem _ _ K (fun b hb => ?_)
          have : k0 ≠ b := fun hc => hna (hc ▸ hb)
          simp [this]
        simp [hmap, Nat.add_assoc]
      · have hk' : k0 ∈ K := by
          rcases List.mem_cons.1 hk with h | h
          · exact absurd h hka
          · exact h
        simp only [List.map_cons, List.sum_cons, if_neg hka, ih hndK hk']
        omega

theorem sumFilterPartition {α κ : Type} [DecidableEq κ] (key : α → κ) (f : α → Nat) :
    ∀ (l : List α) (K : List κ), K.Nodup → (∀ a ∈ l, key a ∈ K) →
      (K.map (fun k => ((l.filter (fun a => decide (key a = k))).map f).sum)).sum =
        (l.map f).sum := by
  intro l
  induction l with
  | nil =>
      intro K _ _
      simp only [List.filter_nil, List.map_nil, List.sum_nil]
      exact sumMapZero K
  | cons a l ih =>
      intro K hnd hcov
      have hstep :
          K.map (fun k => (((a :: l).filter (fun b => decide (key b = k))).map f).sum) =
            K.map (fun k =>
              if key a = k then f a + ((l.filter (fun b => decide (key b = k))).map f).sum
              else ((l.filter (fun b => decide (key b = k))).map f).sum) := by
        refine mapCongrMem _ _ K (fun k _ => ?_)
        by_cases h : key a = k
        · simp [List.filter_cons, h]
        · simp [List.filter_cons, h]
      rw [hstep,
        sumMapIteMem (key a) (f a) _ K hnd (hcov a (by simp)),
        ih K hnd (fun b hb => hcov b (by simp [hb]))]
      simp

/-! ### Group keys, colour lookup, and route-column lemmas -/

@[simp] theorem setRoute_Year (r : Row) : (setRoute r).Year = r.Year := rfl

@[simp] theorem setRoute_city1 (r : Row) : (setRoute r).city1 = r.city1 := rfl

@[simp] theorem setRoute_city2 (r : Row) : (setRoute r).city2 = r.city2 := rfl

@[simp] theorem setRoute_passengers (r : Row) : (setRoute r).passengers = r.passengers := rfl

@[simp] theorem setRoute_airport (r : Row) : (setRoute r).airport_1 = r.airport_1 := rfl

@[simp] theorem setRoute_start_lat (r : Row) : (setRoute r).start_lat = r.start_lat := rfl

@[simp] theorem setRoute_start_lon (r : Row) : (setRoute r).start_lon = r.start_lon := rfl

@[simp] theorem setRoute_end_lat (r : Row) : (setRoute r).end_lat = r.end_lat := rfl

@[simp] theorem setRoute_end_lon (r : Row) : (setRoute r).end_lon = r.end_lon := rfl

theorem setRoute_setRoute (r : Row) : setRoute (setRoute r) = setRoute r := rfl

theorem withRoute_idem (df : Dataset) : withRoute (withRoute df) = withRoute df := by
  simp only [withRoute, List.map_map]
  exact mapCongrMem _ _ df (fun r _ => setRoute_setRoute r)

theorem aggGroupKeys_perm (dfy : Dataset) :
    (aggGroupKeys dfy).Perm (dedupFirst (dfy.map aggKey)) :=
  List.perm_insertionSort keyLe3 _

theorem nodup_aggGroupKeys (dfy : Dataset) : (aggGroupKeys dfy).Nodup :=
  (aggGroupKeys_perm dfy).nodup_iff.2 (nodup_dedupFirst _)

theorem mem_aggGroupKeys {dfy : Dataset} {k : String × ℚ × ℚ} :
    k ∈ aggGroupKeys dfy ↔ ∃ r ∈ dfy, aggKey r = k := by
  rw [(aggGroupKeys_perm dfy).mem_iff, mem_dedupFirst]
  simp [List.mem_map]

theorem aggGroupKeys_cover {dfy : Dataset} {r : Row} (hr : r ∈ dfy) :
    aggKey r ∈ aggGroupKeys dfy :=
  mem_aggGroupKeys.2 ⟨r, hr, rfl⟩

theorem rcGroupKeys_perm (dfR : Dataset) :
    (rcGroupKeys dfR).Perm (dedupFirst (dfR.map rcKey)) :=
  List.perm_insertionSort rkeyLex _

theorem mem_rcGroupKeys {dfR : Dataset} {k : RKey} :
    k ∈ rcGroupKeys dfR ↔ ∃ r ∈ dfR, rcKey r = k := by
  rw [(rcGroupKeys_perm dfR).mem_iff, mem_dedupFirst]
  simp [List.mem_map]

theorem aggGroup_ne_nil {dfy : Dataset} {k : String × ℚ × ℚ} (hk : k ∈ aggGroupKeys dfy) :
    dfy.filter (fun r => decide (aggKey r = k)) ≠ [] := by
  rcases mem_aggGroupKeys.1 hk with ⟨r, hr, hkey⟩
  have : r ∈ dfy.filter (fun r => decide (aggKey r = k)) :=
    List.mem_filter.2 ⟨hr, by simp [hkey]⟩
  intro hnil
  rw [hnil] at this
  cases this

theorem rcGroup_ne_nil {dfR : Dataset} {k : RKey} (hk : k ∈ rcGroupKeys dfR) :
    dfR.filter (fun r => decide (rcKey r = k)) ≠ [] := by
  rcases mem_rcGroupKeys.1 hk with ⟨r, hr, hkey⟩
  have : r ∈ dfR.filter (fun r => decide (rcKey r = k)) :=
    List.mem_filter.2 ⟨hr, by simp [hkey]⟩
  intro hnil
  rw [hnil] at this
  cases this

theorem routeCounts_ne_nil {df : Dataset} (h : df ≠ []) : routeCounts df ≠ [] := by
  rcases df with _ | ⟨r, df⟩
  · exact absurd rfl h
  · intro hc
    have hmem : rcKey (setRoute r) ∈ rcGroupKeys (withRoute (r :: df)) :=
      mem_rcGroupKeys.2 ⟨setRoute r, by simp [withRoute], rfl⟩
    have : (rcKey (setRoute r),
        ((withRoute (r :: df)).filter
          (fun s => decide (rcKey s = rcKey (setRoute r)))).length) ∈ routeCounts (r :: df) := by
      exact List.mem_map.2 ⟨_, hmem, rfl⟩
    rw [hc] at this
    cases this

theorem routeCounts_counts_pos {df : Dataset} {p : RKey × Nat}
    (hp : p ∈ routeCounts df) : 1 ≤ p.2 := by
  rcases List.mem_map.1 hp with ⟨k, hk, rfl⟩
  have hne := rcGroup_ne_nil hk
  rcases hfi : (withRoute df).filter (fun r => decide (rcKey r = k)) with _ | ⟨s, l⟩
  · exact absurd hfi hne
  · simp [hfi]

theorem le_maxCount : ∀ (l : List Nat), ∀ x ∈ l, x ≤ maxCount l := by
  intro l
  induction l with
  | nil => intro x hx; cases hx
  | cons a l ih =>
      intro x hx
      rcases List.mem_cons.1 hx with rfl | hx
      · exact Nat.le_max_left _ _
      · exact Nat.le_trans (ih x hx) (Nat.le_max_right _ _)

theorem cityColorsAux_keys : ∀ (l : List String) (i : Nat),
    (cityColorsAux i l).map Prod.fst = l := by
  intro l
  induction l with
  | nil => intro i; rfl
  | cons c cs ih => intro i; simp [cityColorsAux, ih]

theorem lookup_cityColorsAux :
    ∀ (l : List String) (i idx : Nat) (c : String), l.Nodup → l.get? idx = some c →
      (cityColorsAux i l).lookup c =
        some (plotlyPalette.getD ((i + idx) % plotlyPalette.length) "") := by
  intro l
  induction l with
  | nil => intro i idx c _ hg; cases hg
  | cons hd tl ih =>
      intro i idx c hnd hg
      rcases List.nodup_cons.1 hnd with ⟨hhd, hndtl⟩
      cases idx with
      | zero =>
          rw [List.get?] at hg
          injection hg with hg
          subst hg
          simp [cityColorsAux, List.lookup]
      | succ n =>
          rw [List.get?] at hg
          have hc : c ∈ tl := List.get?_mem hg
          have hne : (c == hd) = false := by
            apply beq_false_of_ne
            intro hch
            exact hhd (hch ▸ hc)
          have := ih (i + 1) n c hndtl hg
          simp only [cityColorsAux, List.lookup, hne]
          rw [this]
          have harith : i + 1 + n = i + (n + 1) := by omega
          rw [harith]

theorem nodupMapOn {α β : Type} (f : α → β) :
    ∀ l : List α, (∀ x ∈ l, ∀ y ∈ l, f x = f y → x = y) → l.Nodup → (l.map f).Nodup := by
  intro l
  induction l with
  | nil => intro _ _; simp
  | cons a l ih =>
      intro hinj hnd
      rcases List.nodup_cons.1 hnd with ⟨hna, hndl⟩
      rw [List.map_cons, List.nodup_cons]
      constructor
      · intro hc
        rcases List.mem_map.1 hc with ⟨b, hb, hfb⟩
        have : b = a := hinj b (List.mem_cons_of_mem _ hb) a (List.mem_cons_self _ _) hfb
        exact hna (this ▸ hb)
      · exact ih (fun x hx y hy => hinj x (List.mem_cons_of_mem _ hx) y (List.mem_cons_of_mem _ hy)) hndl

theorem distinctYears_withRoute (df : Dataset) :
    distinctYears (withRoute df) = distinctYears df := by
  unfold distinctYears withRoute
  rw [List.map_map]
  rfl

theorem distinctCities_withRoute (df : Dataset) :
    distinctCities (withRoute df) = distinctCities df := by
  unfold distinctCities withRoute
  rw [List.map_map]
  rfl

theorem resolveYears_withRoute (df : Dataset) (y : Option (List Nat)) :
    resolveYears (withRoute df) y = resolveYears df y := by
  cases y with
  | none => exact distinctYears_withRoute df
  | some l => simp [resolveYears, distinctYears_withRoute]

theorem resolveCities_withRoute (df : Dataset) (c : Option (List String)) :
    resolveCities (withRoute df) c = resolveCities df c := by
  cases c with
  | none => exact distinctCities_withRoute df
  | some l => simp [resolveCities, distinctCities_withRoute]

theorem filteredRows_withRoute (df : Dataset) (ys : List Nat) (cs : List String) :
    filteredRows (withRoute df) ys cs = filteredRows df ys cs := by
  unfold filteredRows
  rw [withRoute_idem]

theorem filtOf_withRoute (df : Dataset) (y : Option (List Nat)) (c : Option (List String)) :
    filtOf (withRoute df) y c = filtOf df y c := by
  unfold filtOf
  rw [filteredRows_withRoute, resolveYears_withRoute, resolveCities_withRoute]

theorem routeCounts_withRoute (df : Dataset) :
    routeCounts (withRoute df) = routeCounts df := by
  unfold routeCounts
  rw [withRoute_idem]

theorem figureOf_withRoute (df : Dataset) (y : Option (List Nat)) (c : Option (List String)) :
    figureOf (withRoute df) y c = figureOf df y c := by
  unfold figureOf aggOf
  rw [filtOf_withRoute]
  unfold markerTraceOf
  rw [routeCounts_withRoute]

theorem updateGraph_withRoute (df : Dataset) (y : Option (List Nat)) (c : Option (List String)) :
    updateGraph (withRoute df) y c = updateGraph df y c := by
  unfold updateGraph
  rw [routeCounts_withRoute, figureOf_withRoute]
  rw [withRoute_idem]

theorem datasetAfter_eq_withRoute (df : Dataset) (y : Option (List Nat)) (c : Option (List String)) :
    datasetAfter df y c = withRoute df := by
  unfold datasetAfter updateGraph
  by_cases h : routeCounts df = [] <;> simp [h]

theorem resolveYears_some_distinct (df : Dataset) :
    resolveYears df (some (distinctYears df)) = resolveYears df none := by
  simp [resolveYears]

theorem resolveYears_some_nil (df : Dataset) :
    resolveYears df (some []) = resolveYears df none := by
  simp [resolveYears]

theorem resolveCities_some_distinct (df : Dataset) :
    resolveCities df (some (distinctCities df)) = resolveCities df none := by
  simp [resolveCities]

theorem resolveCities_some_nil (df : Dataset) :
    resolveCities df (some []) = resolveCities df none := by
  simp [resolveCities]

theorem updateGraph_congr (df : Dataset) (y1 y2 : Option (List Nat))
    (c1 c2 : Option (List String)) (hy : resolveYears df y1 = resolveYears df y2)
    (hc : resolveCities df c1 = resolveCities df c2) :
    updateGraph df y1 c1 = updateGraph df y2 c2 := by
  unfold updateGraph figureOf aggOf filtOf
  rw [hy, hc]

theorem filteredRows_eq_map_filter (df : Dataset) (ys : List Nat) (cs : List String) :
    filteredRows df ys cs =
      (df.filter (fun r => decide (r.Year ∈ ys ∧ r.city1 ∈ cs))).map setRoute := by
  unfold filteredRows withRoute
  rw [filterMapComm]
  rfl

/-! ### Claim theorems -/

/-- C2: for each dimension, calling `update_graph` with an absent (`None`) or
empty selection produces exactly the same result — mutated dataframe and
figure alike — as calling it with the full list of that dimension's distinct
values from the dataset. -/
theorem c2_empty_selection_is_select_all (df : Dataset) (y : Option (List Nat))
    (c : Option (List String)) :
    updateGraph df none c = updateGraph df (some (distinctYears df)) c
    ∧ updateGraph df (some []) c = updateGraph df none c
    ∧ updateGraph df y none = updateGraph df y (some (distinctCities df))
    ∧ updateGraph df y (some []) = updateGraph df y none := by
  refine ⟨?_, ?_, ?_, ?_⟩
  · exact updateGraph_congr df none (some (distinctYears df)) c c
      (resolveYears_some_distinct df).symm rfl
  · exact updateGraph_congr df (some []) none c c (resolveYears_some_nil df) rfl
  · exact updateGraph_congr df y y none (some (distinctCities df)) rfl
      (resolveCities_some_distinct df).symm
  · exact updateGraph_congr df y y (some []) none rfl (resolveCities_some_nil df)

/-- C3: for every filter selection, the sum of the passenger aggregates over
all rows of the aggregated city summary equals the sum of the `passengers`
column over exactly the dataset rows satisfying the filter predicate. -/
theorem c3_passenger_sum_conserved (df : Dataset) (y : Option (List Nat))
    (c : Option (List String)) :
    ((aggOf df y c).map (·.passengers)).sum =
      ((df.filter (fun r =>
          decide (r.Year ∈ resolveYears df y ∧ r.city1 ∈ resolveCities df c))).map
        (·.passengers)).sum := by
  have h1 : (aggOf df y c).map (·.passengers)
      = (aggGroupKeys (filtOf df y c)).map
          (fun k => (((filtOf df y c).filter (fun r => decide (aggKey r = k))).map
            (fun r => r.passengers)).sum) := by
    unfold aggOf dfAggregated
    rw [List.map_map]
    rfl
  rw [h1,
    sumFilterPartition aggKey (fun r => r.passengers) (filtOf df y c)
      (aggGroupKeys (filtOf df y c)) (nodup_aggGroupKeys _)
      (fun r hr => aggGroupKeys_cover hr)]
  show ((filteredRows df _ _).map (fun r => r.passengers)).sum = _
  rw [filteredRows_eq_map_filter, List.map_map]
  rfl

/-- C7 counterexample: the claim that no invocation of `update_graph` modifies
the in-memory dataset is false — on a concrete dataset whose `route` column is
absent, the dataset left behind by the call differs from the input. -/
theorem c7_dataset_immutable_counterexample :
    datasetAfter exA none none ≠ exA := by decide

/-- C7 (amended): `update_graph` does mutate the shared dataframe, but only by
(re)writing the derived `route` column: the dataset after a call is exactly
`withRoute df`, every original column is unchanged, the write is idempotent,
and a further call on the mutated dataset returns exactly what it returns on
the original dataset. -/
theorem c7_route_column_mutation_only (df : Dataset) (y y2 : Option (List Nat))
    (c c2 : Option (List String)) :
    datasetAfter df y c = withRoute df
    ∧ (withRoute df).map eraseRoute = df.map eraseRoute
    ∧ withRoute (withRoute df) = withRoute df
    ∧ updateGraph (datasetAfter df y c) y2 c2 = updateGraph df y2 c2 := by
  refine ⟨datasetAfter_eq_withRoute df y c, ?_, withRoute_idem df, ?_⟩
  · rw [withRoute, List.map_map]
    exact mapCongrMem _ _ df (fun r _ => rfl)
  · rw [datasetAfter_eq_withRoute df y c, updateGraph_withRoute]

/-- C8: a filter selection matching no rows is not an error — on a nonempty
dataset `update_graph` returns a figure whose marker trace has no points (and
no hover text, no colours) and which contains no line traces. -/
theorem c8_all_filtered_out_empty_figure (df : Dataset) (y : Option (List Nat))
    (c : Option (List String)) (hdf : df ≠ []) (hfl : filtOf df y c = []) :
    updateGraph df y c = Except.ok (withRoute df, figureOf df y c)
    ∧ (figureOf df y c).lines = []
    ∧ (figureOf df y c).marker.lon = []
    ∧ (figureOf df y c).marker.lat = []
    ∧ (figureOf df y c).marker.text = []
    ∧ (figureOf df y c).marker.colors = [] := by
  have hagg : aggOf df y c = [] := by
    unfold aggOf dfAggregated aggGroupKeys
    rw [hfl]
    rfl
  refine ⟨?_, ?_, ?_, ?_, ?_, ?_⟩
  · unfold updateGraph
    rw [if_neg (routeCounts_ne_nil hdf)]
  · show lineTracesOf (filtOf df y c) (aggOf df y c) = []
    rw [hfl]
    rfl
  · show (markerTraceOf df (aggOf df y c)).lon = []
    rw [hagg]
    rfl
  · show (markerTraceOf df (aggOf df y c)).lat = []
    rw [hagg]
    rfl
  · show (markerTraceOf df (aggOf df y c)).text = []
    rw [hagg]
    rfl
  · show (markerTraceOf df (aggOf df y c)).colors = []
    rw [hagg]
    rfl

/-- C8 witness: on the concrete one-row dataset `exA`, selecting year 1999
filters everything out and the callback returns the empty figure. -/
theorem c8_empty_figure_witness :
    exA ≠ []
    ∧ filtOf exA (some [1999]) none = []
    ∧ (updateGraph exA (some [1999]) none =
          Except.ok (withRoute exA, figureOf exA (some [1999]) none)
        ∧ (figureOf exA (some [1999]) none).lines = []
        ∧ (figureOf exA (some [1999]) none).marker.lon = []
        ∧ (figureOf exA (some [1999]) none).marker.lat = []
        ∧ (figureOf exA (some [1999]) none).marker.text = []
        ∧ (figureOf exA (some [1999]) none).marker.colors = []) :=
  ⟨by decide, by decide,
    c8_all_filtered_out_empty_figure exA (some [1999]) none (by decide) (by decide)⟩

/-- C1: for every filter selection the figure contains exactly one line trace
per dataset row satisfying the filter predicate — the number of line traces
equals the number of filtered rows (independent of the route grouping, which
the line layer never consults) — and the trace at position `i` is a two-point
path from the `i`-th filtered row's origin coordinates to its destination
coordinates, coloured by the colour assigned to that row's origin city. -/
theorem c1_line_trace_per_filtered_row (df : Dataset) (y : Option (List Nat))
    (c : Option (List String)) :
    (figureOf df y c).lines.length =
      (df.filter (fun r =>
        decide (r.Year ∈ resolveYears df y ∧ r.city1 ∈ resolveCities df c))).length
    ∧ ∀ (i : Nat) (r : Row), (filtOf df y c)[i]? = some r →
        (figureOf df y c).lines[i]? = some
          ({ lon := [some r.start_lon, some r.end_lon, none]
             lat := [some r.start_lat, some r.end_lat, none]
             width := 1
             color := (cityColors (aggOf df y c)).lookup r.city1
             opacity := 1 / 2 } : LineTrace) := by
  constructor
  · show (lineTracesOf (filtOf df y c) (aggOf df y c)).length = _
    unfold lineTracesOf
    rw [List.length_map]
    show (filteredRows df _ _).length = _
    rw [filteredRows_eq_map_filter, List.length_map]
  · intro i r hr
    show (lineTracesOf (filtOf df y c) (aggOf df y c))[i]? = _
    unfold lineTracesOf
    rw [List.getElem?_map, hr]
    rfl

/-- C1 witness: on the one-row dataset `exA` with no filter restriction, the
single filtered row yields the single expected line trace. -/
theorem c1_line_trace_witness :
    (filtOf exA none none)[0]? =
        some (setRoute (mkRow 2020 "Austin" "Dallas" "AUS" 100 30 (-97) 32 (-96)))
    ∧ (figureOf exA none none).lines[0]? = some
        ({ lon := [some (-97), some (-96), none]
           lat := [some 30, some 32, none]
           width := 1
           color := (cityColors (aggOf exA none none)).lookup "Austin"
           opacity := 1 / 2 } : LineTrace) :=
  ⟨by decide,
    (c1_line_trace_per_filtered_row exA none none).2 0
      (setRoute (mkRow 2020 "Austin" "Dallas" "AUS" 100 30 (-97) 32 (-96))) (by decide)⟩

/-- C4: within one recompute, the colour map assigns each distinct origin city
of the aggregation exactly one colour (its keys are exactly the distinct
aggregated cities, without duplicates), the `i`-th distinct city receives the
fixed palette colour at index `i mod 10`, the marker trace colours every
aggregated row by its city's assigned colour, and every line trace is coloured
by the assigned colour of its row's origin city — which is always one of the
aggregated cities. -/
theorem c4_city_colors_consistent (df : Dataset) (y : Option (List Nat))
    (c : Option (List String)) :
    ((cityColors (aggOf df y c)).map Prod.fst).Nodup
    ∧ (∀ i city, (uniqueCities (aggOf df y c))[i]? = some city →
        (cityColors (aggOf df y c)).lookup city =
          some (plotlyPalette.getD (i % plotlyPalette.length) ""))
    ∧ (figureOf df y c).marker.colors =
        (aggOf df y c).map (fun a => (cityColors (aggOf df y c)).lookup a.city1)
    ∧ ∀ (i : Nat) (r : Row), (filtOf df y c)[i]? = some r →
        ((figureOf df y c).lines[i]?).map LineTrace.color =
          some ((cityColors (aggOf df y c)).lookup r.city1)
        ∧ r.city1 ∈ uniqueCities (aggOf df y c) := by
  refine ⟨?_, ?_, rfl, ?_⟩
  · show ((cityColorsAux 0 (uniqueCities (aggOf df y c))).map Prod.fst).Nodup
    rw [cityColorsAux_keys]
    exact nodup_dedupFirst _
  · intro i city hg
    have h := lookup_cityColorsAux (uniqueCities (aggOf df y c)) 0 i city
      (nodup_dedupFirst _) (by rw [List.get?_eq_getElem?]; exact hg)
    rw [show 0 + i = i by omega] at h
    exact h
  · intro i r hr
    constructor
    · show ((lineTracesOf (filtOf df y c) (aggOf df y c))[i]?).map LineTrace.color = _
      unfold lineTracesOf
      rw [List.getElem?_map, hr]
      rfl
    · have hrf : r ∈ filtOf df y c := List.getElem?_mem hr
      have hk : aggKey r ∈ aggGroupKeys (filtOf df y c) := aggGroupKeys_cover hrf
      have hcity : r.city1 ∈ (aggOf df y c).map (·.city1) := by
        unfold aggOf dfAggregated
        rw [List.map_map]
        exact List.mem_map.2 ⟨aggKey r, hk, rfl⟩
      show r.city1 ∈ dedupFirst ((aggOf df y c).map (·.city1))
      rw [mem_dedupFirst]
      exact hcity

/-- C4 witness: on the two-city dataset `exB`, the first distinct city gets
palette colour 0, and the second line trace is coloured by the colour of its
origin city, which appears among the aggregated cities. -/
theorem c4_city_colors_witness :
    (uniqueCities (aggOf exB none none))[0]? = some "Austin"
    ∧ (cityColors (aggOf exB none none)).lookup "Austin" =
        some (plotlyPalette.getD (0 % plotlyPalette.length) "")
    ∧ (filtOf exB none none)[1]? =
        some (setRoute (mkRow 2021 "Boston" "Chicago" "BOS" 70 42 (-71) 41 (-87)))
    ∧ (((figureOf exB none none).lines[1]?).map LineTrace.color =
          some ((cityColors (aggOf exB none none)).lookup "Boston")
        ∧ "Boston" ∈ uniqueCities (aggOf exB none none)) :=
  ⟨by decide,
    (c4_city_colors_consistent exB none none).2.1 0 "Austin" (by decide),
    by decide,
    (c4_city_colors_consistent exB none none).2.2.2 1
      (setRoute (mkRow 2021 "Boston" "Chicago" "BOS" 70 42 (-71) 41 (-87))) (by decide)⟩

/-- C5 evidence (code bug): the flight counts at line 64 are computed from the
FULL dataframe grouped by `(route, start_lat, start_lon, airport_1)`, not from
the filtered rows grouped by the route key alone as the surrounding comments
and the spec describe.  On `ex5` with year 2020 selected, the code produces
two separate count rows for the single unordered route key
`("Austin", "Dallas")` — one of them counting the unselected 2021 row — while
grouping the filtered rows by the route key alone yields the single count 2
(and the counts would change to a single count 1 under the 2021 selection,
which the code's selection-independent counts cannot reflect). -/
theorem c5_route_counts_ignore_filter_and_split_routes :
    (routeCounts ex5).map (fun p => (p.1.1, p.2)) =
      [(("Austin", "Dallas"), 2), (("Austin", "Dallas"), 1)]
    ∧ routeCountsSpec (filtOf ex5 (some [2020]) none) = [(("Austin", "Dallas"), 2)]
    ∧ routeCountsSpec (filtOf ex5 (some [2021]) none) = [(("Austin", "Dallas"), 1)] := by
  refine ⟨by decide, by decide, by decide⟩

/-- C6: marker sizing is monotone in the flight counts — on a nonempty
dataset the `sizeref` of the marker trace is the positive value
`2 * max(flightCount) / 15 ^ 2`, and whenever one entry of the size array is
strictly greater than another, its area-mode size factor `size / sizeref` is
no smaller. -/
theorem c6_marker_size_monotone (df : Dataset) (y : Option (List Nat))
    (c : Option (List String)) (hdf : df ≠ []) :
    0 < (figureOf df y c).marker.sizeref
    ∧ (figureOf df y c).marker.sizeref
        = 2 * (maxCount ((routeCounts df).map (·.2)) : ℚ) / 15 ^ 2
    ∧ ∀ (i j ci cj : Nat),
        (figureOf df y c).marker.sizes[i]? = some ci →
        (figureOf df y c).marker.sizes[j]? = some cj →
        cj < ci →
        markerSizeFactor cj (figureOf df y c).marker.sizeref ≤
          markerSizeFactor ci (figureOf df y c).marker.sizeref := by
  have hpos1 : 1 ≤ maxCount ((routeCounts df).map (·.2)) := by
    have hne := routeCounts_ne_nil hdf
    rcases hrc : routeCounts df with _ | ⟨p, l⟩
    · exact absurd hrc hne
    · have hp : p ∈ routeCounts df := by rw [hrc]; exact List.mem_cons_self _ _
      have h1 : 1 ≤ p.2 := routeCounts_counts_pos hp
      have hmem : p.2 ∈ (p :: l).map (fun x => x.2) :=
        List.mem_map.2 ⟨p, List.mem_cons_self _ _, rfl⟩
      exact le_trans h1 (le_maxCount _ _ hmem)
  have hposQ : 0 < 2 * (maxCount ((routeCounts df).map (·.2)) : ℚ) / 15 ^ 2 := by
    have hm : (0 : ℚ) < (maxCount ((routeCounts df).map (·.2)) : ℚ) := by
      have : (1 : ℚ) ≤ (maxCount ((routeCounts df).map (·.2)) : ℚ) := by
        exact_mod_cast hpos1
      linarith
    have hnum : (0 : ℚ) < 2 * (maxCount ((routeCounts df).map (·.2)) : ℚ) := by linarith
    have hden : (0 : ℚ) < 15 ^ 2 := by norm_num
    exact div_pos hnum hden
  refine ⟨hposQ, rfl, ?_⟩
  intro i j ci cj hi hj hlt
  have hle : (cj : ℚ) ≤ (ci : ℚ) := by exact_mod_cast le_of_lt hlt
  show (cj : ℚ) / (figureOf df y c).marker.sizeref ≤
    (ci : ℚ) / (figureOf df y c).marker.sizeref
  exact (div_le_div_iff_of_pos_right hposQ).mpr hle

/-- C6 witness: on `ex5` the size array is `[2, 1]` and the factor of the
count-1 entry does not exceed the factor of the count-2 entry. -/
theorem c6_marker_size_witness :
    ex5 ≠ []
    ∧ (figureOf ex5 none none).marker.sizes[0]? = some 2
    ∧ (figureOf ex5 none none).marker.sizes[1]? = some 1
    ∧ (1 : Nat) < 2
    ∧ markerSizeFactor 1 (figureOf ex5 none none).marker.sizeref ≤
        markerSizeFactor 2 (figureOf ex5 none none).marker.sizeref :=
  ⟨by decide, by decide, by decide, by decide,
    (c6_marker_size_monotone ex5 none none (by decide)).2.2 0 1 2 1
      (by decide) (by decide) (by decide)⟩

/-- C9 counterexample: the aggregation of lines 77-82 groups by
`(city1, start_lat, start_lon)`, not by origin city alone, so a city recorded
with two origin coordinates occupies two rows of the aggregated summary —
refuting the claim that every distinct filtered origin city has exactly one
summary row. -/
theorem c9_one_row_per_city_counterexample :
    (aggOf ex9 none none).map (·.city1) = ["Austin", "Austin"]
    ∧ ¬ ((aggOf ex9 none none).map (·.city1)).Nodup :=
  ⟨by decide, by decide⟩

/-- C9 (amended): the summary has exactly one row per distinct
`(city1, start_lat, start_lon)` triple of the filtered rows, a city appears in
the summary exactly when it appears among the filtered rows, and whenever
every filtered row of a city carries the same origin coordinates — as holds
for a dataset whose coordinates are geocoded from the city name — the summary
has exactly one row per distinct filtered origin city. -/
theorem c9_one_row_per_coord_group (df : Dataset) (y : Option (List Nat))
    (c : Option (List String)) :
    ((aggOf df y c).map (fun a => (a.city1, a.start_lat, a.start_lon))).Nodup
    ∧ (∀ city, city ∈ (aggOf df y c).map (·.city1) ↔
        city ∈ (filtOf df y c).map (·.city1))
    ∧ ((∀ r ∈ filtOf df y c, ∀ s ∈ filtOf df y c, r.city1 = s.city1 →
          r.start_lat = s.start_lat ∧ r.start_lon = s.start_lon) →
        ((aggOf df y c).map (·.city1)).Nodup) := by
  have hmapkey : (aggOf df y c).map (fun a => (a.city1, a.start_lat, a.start_lon))
      = aggGroupKeys (filtOf df y c) := by
    unfold aggOf dfAggregated
    rw [List.map_map]
    exact (mapCongrMem _ id _ (fun k _ => rfl)).trans (List.map_id _)
  have hmapcity : (aggOf df y c).map (·.city1)
      = (aggGroupKeys (filtOf df y c)).map (fun k => k.1) := by
    unfold aggOf dfAggregated
    rw [List.map_map]
    rfl
  refine ⟨?_, ?_, ?_⟩
  · rw [hmapkey]
    exact nodup_aggGroupKeys _
  · intro city
    rw [hmapcity]
    constructor
    · intro h
      rcases List.mem_map.1 h with ⟨k, hk, rfl⟩
      rcases mem_aggGroupKeys.1 hk with ⟨r, hr, rfl⟩
      exact List.mem_map.2 ⟨r, hr, rfl⟩
    · intro h
      rcases List.mem_map.1 h with ⟨r, hr, rfl⟩
      exact List.mem_map.2 ⟨aggKey r, aggGroupKeys_cover hr, rfl⟩
  · intro hfd
    rw [hmapcity]
    refine nodupMapOn _ _ ?_ (nodup_aggGroupKeys _)
    intro x hx y2 hy2 hxy
    rcases mem_aggGroupKeys.1 hx with ⟨r, hr, rfl⟩
    rcases mem_aggGroupKeys.1 hy2 with ⟨s, hs, rfl⟩
    have hcity : r.city1 = s.city1 := hxy
    have hco := hfd r hr s hs hcity
    show aggKey r = aggKey s
    unfold aggKey
    rw [hcity, hco.1, hco.2]

/-- C9 witness: on `exB`, whose two cities each have a single origin
coordinate, the per-city uniqueness conclusion holds. -/
theorem c9_one_row_witness :
    (∀ r ∈ filtOf exB none none, ∀ s ∈ filtOf exB none none, r.city1 = s.city1 →
        r.start_lat = s.start_lat ∧ r.start_lon = s.start_lon)
    ∧ ((aggOf exB none none).map (·.city1)).Nodup :=
  ⟨by decide, (c9_one_row_per_coord_group exB none none).2.2 (by decide)⟩

/-- C10 counterexample: with a city recorded under two origin coordinates the
summary's representative airport for that city is not the one of the city's
first-encountered filtered row — the first summary row for "Austin" reports
"AUS-B" although Austin's first filtered row carries "AUS-A". -/
theorem c10_first_wins_counterexample :
    ((aggOf ex10 none none)[0]?).map (·.airport_1) = some "AUS-B"
    ∧ ((aggOf ex10 none none)[0]?).map (·.city1) = some "Austin"
    ∧ ((filtOf ex10 none none).filter
        (fun r => decide (r.city1 = "Austin"))).head?.map (·.airport_1) = some "AUS-A"
    ∧ "AUS-B" ≠ "AUS-A" :=
  ⟨by decide, by decide, by decide, by decide⟩

/-- C10 (amended): whenever every filtered row of a city carries the same
origin coordinates, each summary row reports, for its city, the representative
airport and the destination coordinates of the FIRST filtered row of that city
(first-wins, even when the city has several distinct destinations), and its
passenger total is the sum over all of the city's filtered rows. -/
theorem c10_first_wins_per_city (df : Dataset) (y : Option (List Nat))
    (c : Option (List String))
    (hfd : ∀ r ∈ filtOf df y c, ∀ s ∈ filtOf df y c, r.city1 = s.city1 →
        r.start_lat = s.start_lat ∧ r.start_lon = s.start_lon) :
    ∀ (i : Nat) (a : AggRow), (aggOf df y c)[i]? = some a →
      ((filtOf df y c).filter (fun r => decide (r.city1 = a.city1))).head?.map
          (fun r => (r.airport_1, r.end_lat, r.end_lon))
        = some (a.airport_1, a.end_lat, a.end_lon)
      ∧ a.passengers =
          (((filtOf df y c).filter (fun r => decide (r.city1 = a.city1))).map
            (·.passengers)).sum := by
  intro i a ha
  have hmap : (aggOf df y c)[i]?
      = ((aggGroupKeys (filtOf df y c))[i]?).map (mkAggRow (filtOf df y c)) := by
    unfold aggOf dfAggregated
    rw [List.getElem?_map]
  rw [hmap] at ha
  rcases hk : (aggGroupKeys (filtOf df y c))[i]? with _ | k
  · rw [hk] at ha; cases ha
  · rw [hk] at ha
    injection ha with ha
    have hkmem : k ∈ aggGroupKeys (filtOf df y c) := List.getElem?_mem hk
    rcases mem_aggGroupKeys.1 hkmem with ⟨r0, hr0, hkey0⟩
    have hfe : (filtOf df y c).filter (fun r => decide (r.city1 = a.city1))
        = (filtOf df y c).filter (fun r => decide (aggKey r = k)) := by
      refine filterCongrMem _ _ _ (fun r hr => ?_)
      have hac : a.city1 = k.1 := by rw [← ha]; rfl
      by_cases h : r.city1 = a.city1
      · have h0 : r.city1 = r0.city1 := by
          rw [h, hac, ← hkey0]
          rfl
        have hco := hfd r hr r0 hr0 h0
        have hkk : aggKey r = k := by
          rw [← hkey0]
          unfold aggKey
          rw [h0, hco.1, hco.2]
        simp [h, hkk]
      · have hnk : aggKey r ≠ k := by
          intro hc
          apply h
          rw [hac, ← hc]
          rfl
        simp [h, hnk]
    have hne : (filtOf df y c).filter (fun r => decide (aggKey r = k)) ≠ [] :=
      aggGroup_ne_nil hkmem
    rcases hg : (filtOf df y c).filter (fun r => decide (aggKey r = k)) with _ | ⟨r1, l1⟩
    · exact absurd hg hne
    · have ha1 : a.airport_1 = r1.airport_1 := by
        rw [← ha]
        show ((((filtOf df y c).filter
          (fun r => decide (aggKey r = k))).head?).map (·.airport_1)).getD "" = _
        rw [hg]
        rfl
      have ha2 : a.end_lat = r1.end_lat := by
        rw [← ha]
        show ((((filtOf df y c).filter
          (fun r => decide (aggKey r = k))).head?).map (·.end_lat)).getD 0 = _
        rw [hg]
        rfl
      have ha3 : a.end_lon = r1.end_lon := by
        rw [← ha]
        show ((((filtOf df y c).filter
          (fun r => decide (aggKey r = k))).head?).map (·.end_lon)).getD 0 = _
        rw [hg]
        rfl
      have ha4 : a.passengers
          = (((filtOf df y c).filter (fun r => decide (aggKey r = k))).map
              (·.passengers)).sum := by
        rw [← ha]
        rfl
      constructor
      · rw [hfe, hg, ha1, ha2, ha3]
        rfl
      · rw [hfe, ha4]

/-- C10 witness: on `exW10` — one city, one origin coordinate, two distinct
destinations — the single summary row reports the airport and destination of
the first filtered row and sums the passengers of both rows. -/
theorem c10_first_wins_witness :
    (∀ r ∈ filtOf exW10 none none, ∀ s ∈ filtOf exW10 none none, r.city1 = s.city1 →
        r.start_lat = s.start_lat ∧ r.start_lon = s.start_lon)
    ∧ (aggOf exW10 none none)[0]? = some w10row
    ∧ (((filtOf exW10 none none).filter
          (fun r => decide (r.city1 = w10row.city1))).head?.map
            (fun r => (r.airport_1, r.end_lat, r.end_lon))
          = some (w10row.airport_1, w10row.end_lat, w10row.end_lon)
        ∧ w10row.passengers =
            (((filtOf exW10 none none).filter
              (fun r => decide (r.city1 = w10row.city1))).map (·.passengers)).sum) :=
  ⟨by decide, by decide,
    c10_first_wins_per_city exW10 none none (by decide) 0 w10row (by decide)⟩
